import Mathlib

/-!
Verification development for the KnowYourCity data-extraction tools.

The definitions below are a shallow embedding of the two scripts
`tools/download_nigeria_settlements.py` and
`tools/extract_atlas_of_informality.py`.

Modelling conventions:
* Python floats are modelled as rationals (`ℚ`) in the settlement pipeline
  (all values there arise from parsing decimal strings) and as reals (`ℝ`)
  in the Web-Mercator conversion (which uses transcendental functions).
  IEEE special values (infinities, NaN) are outside the model; the literal
  spellings `na`/`n/a`/`nan` are filtered before number parsing, exactly as
  in the source.
* Loosely-typed JSON attribute values are modelled by the inductive `PyVal`.
* Fallible Python code (raised exceptions caught by a caller) is modelled
  with `Option`/`Except`.
* The HTTP fetch and the regex search over raw HTML are external
  collaborators of the extraction core; the per-item outcome of
  "fetch page then locate and decode the two embedded payloads"
  is modelled as an explicit `Except` value fed to the batch pipeline.
* String scanning is written over `List Char` so that every concrete
  instance reduces by `decide`.
-/

/-- A loosely-typed value as found in a decoded JSON attribute payload:
`vnull` models Python `None`, the others model `int`, `float`, `str`. -/
inductive PyVal where
  | vnull : PyVal
  | vint : Int → PyVal
  | vfloat : ℚ → PyVal
  | vstr : String → PyVal

/-- Python truthiness of a `PyVal` (`bool(v)`). -/
def PyVal.truthy : PyVal → Bool
  | .vnull => false
  | .vint i => i != 0
  | .vfloat q => q != 0
  | .vstr s => s != ""

/-- Python `a or b` on two optional payload values (`dict.get` misses and
stored `None` are both falsy). -/
def pyOr (a b : Option PyVal) : Option PyVal :=
  match a with
  | some v => if v.truthy then some v else b
  | none => b

/-- Python `str.strip()` (leading and trailing whitespace removed). -/
def pyStrip (s : String) : String :=
  (((s.toList.dropWhile Char.isWhitespace).reverse.dropWhile
      Char.isWhitespace).reverse).asString

/-- Python `str.lower()` restricted to the ASCII range. -/
def pyLower (s : String) : String :=
  (s.toList.map Char.toLower).asString

/-- Digits of a numeral to a natural number. -/
def digitsToNat (ds : List Char) : Nat :=
  ds.foldl (fun acc c => acc * 10 + (c.toNat - 48)) 0

/-- Scanned form of a finite decimal literal: signed mantissa digits with
the decimal point removed, the count of fractional digits, and the
explicit exponent (0 when absent). -/
structure DecLit where
  mant : Int
  frac : Nat
  ex : Int
deriving DecidableEq

/-- Scanner for a decimal literal accepted by CPython `float`:
optional sign, integer and/or fractional digits, optional exponent. -/
def scanLit (s : String) : Option DecLit :=
  let cs := s.toList
  let sgn : Int := match cs with | '-' :: _ => -1 | _ => 1
  let cs := match cs with | '-' :: rest => rest | '+' :: rest => rest | _ => cs
  let intPart := cs.takeWhile Char.isDigit
  let cs := cs.dropWhile Char.isDigit
  let fracPart := match cs with
    | '.' :: rest => rest.takeWhile Char.isDigit
    | _ => []
  let cs := match cs with
    | '.' :: rest => rest.dropWhile Char.isDigit
    | _ => cs
  if intPart = [] ∧ fracPart = [] then none
  else
    let mant := sgn * (digitsToNat (intPart ++ fracPart) : Int)
    match cs with
    | [] => some ⟨mant, fracPart.length, 0⟩
    | e :: rest =>
      if e = 'e' ∨ e = 'E' then
        let esgn : Int := match rest with | '-' :: _ => -1 | _ => 1
        let rest := match rest with
          | '-' :: r => r
          | '+' :: r => r
          | _ => rest
        let eds := rest.takeWhile Char.isDigit
        let rest := rest.dropWhile Char.isDigit
        if eds = [] ∨ rest ≠ [] then none
        else some ⟨mant, fracPart.length, esgn * (digitsToNat eds : Int)⟩
      else none

/-- The rational value of a scanned decimal literal. -/
def litVal (l : DecLit) : ℚ :=
  (l.mant : ℚ) * 10 ^ (l.ex - (l.frac : Int))

/-- Model of CPython `float(s)` restricted to finite decimal literals
(`inf`/`nan` spellings and underscore separators are outside the model). -/
def parseFloat (s : String) : Option ℚ :=
  (scanLit s).map litVal

/-- Model of Python 3 `round(q)` for an exactly-represented value:
round half to even (banker's rounding). -/
def pyRound (q : ℚ) : Int :=
  let f := ⌊q⌋
  let r := q - (f : ℚ)
  if r < 1 / 2 then f
  else if 1 / 2 < r then f + 1
  else if f % 2 = 0 then f else f + 1

/-- `_safe_float` (download_nigeria_settlements.py, lines 114-127).
The argument is the result of a `payload.get` (so `none` models a missing
key and `some .vnull` a stored JSON null). -/
def safe_float : Option PyVal → Option ℚ
  | none => none
  | some .vnull => none
  | some (.vint i) => some (i : ℚ)
  | some (.vfloat q) => some q
  | some (.vstr s) =>
    let t := pyStrip s
    if t = "" ∨ pyLower t = "na" ∨ pyLower t = "n/a" ∨ pyLower t = "nan" then
      none
    else parseFloat t

/-- `_safe_int` (download_nigeria_settlements.py, lines 129-133):
`int(round(number))` on the `_safe_float` result. -/
def safe_int (v : Option PyVal) : Option Int :=
  (safe_float v).map pyRound

/-- A validated calendar date as produced by `datetime.strptime` /
`datetime.fromisoformat` (proleptic Gregorian, years 1-9999). -/
structure PDate where
  year : Nat
  month : Nat
  day : Nat
deriving DecidableEq

/-- Gregorian leap-year test. -/
def isLeap (y : Nat) : Bool :=
  y % 4 = 0 && (y % 100 != 0 || y % 400 = 0)

/-- Length of a month. -/
def daysInMonth (y m : Nat) : Nat :=
  if m = 2 then (if isLeap y then 29 else 28)
  else if m = 4 ∨ m = 6 ∨ m = 9 ∨ m = 11 then 30
  else 31

/-- The range validation performed by the `datetime` constructor. -/
def mkValidDate (y m d : Nat) : Option PDate :=
  if 1 ≤ y ∧ y ≤ 9999 ∧ 1 ≤ m ∧ m ≤ 12 ∧ 1 ≤ d ∧ d ≤ daysInMonth y m then
    some ⟨y, m, d⟩
  else none

/-- Numeric value of a digit character. -/
def digitVal (c : Char) : Nat := c.toNat - 48

/-- `%Y` of `strptime`: exactly four digits. -/
def parseY : List Char → Option (Nat × List Char)
  | a :: b :: c :: d :: rest =>
    if a.isDigit ∧ b.isDigit ∧ c.isDigit ∧ d.isDigit then
      some (digitsToNat [a, b, c, d], rest)
    else none
  | _ => none

/-- `%m` of `strptime`: the ordered regex alternation
`1[0-2] | 0[1-9] | [1-9]`. -/
def parseM : List Char → Option (Nat × List Char)
  | '1' :: c :: rest =>
    if '0' ≤ c ∧ c ≤ '2' then some (10 + digitVal c, rest)
    else some (1, c :: rest)
  | '0' :: c :: rest =>
    if '1' ≤ c ∧ c ≤ '9' then some (digitVal c, rest) else none
  | c :: rest =>
    if '1' ≤ c ∧ c ≤ '9' then some (digitVal c, rest) else none
  | [] => none

/-- `%d` of `strptime`: the ordered regex alternation
`3[01] | [12]\d | 0[1-9] | [1-9]`. -/
def parseD : List Char → Option (Nat × List Char)
  | '3' :: c :: rest =>
    if c = '0' ∨ c = '1' then some (30 + digitVal c, rest)
    else some (3, c :: rest)
  | c1 :: c2 :: rest =>
    if (c1 = '1' ∨ c1 = '2') ∧ c2.isDigit then
      some (digitVal c1 * 10 + digitVal c2, rest)
    else if c1 = '0' ∧ '1' ≤ c2 ∧ c2 ≤ '9' then some (digitVal c2, rest)
    else if '1' ≤ c1 ∧ c1 ≤ '9' then some (digitVal c1, c2 :: rest)
    else none
  | [c] => if '1' ≤ c ∧ c ≤ '9' then some (digitVal c, []) else none
  | [] => none

/-- A literal separator character of a `strptime` pattern. -/
def expectChar (c : Char) : List Char → Option (List Char)
  | d :: rest => if d = c then some rest else none
  | [] => none

/-- One field order of the four date patterns: `true` when the year field
comes first (`%Y s %m s %d`), `false` for day first (`%d s %m s %Y`). -/
def strptime3 (yearFirst : Bool) (sep : Char) (cs : List Char) :
    Option PDate := do
  if yearFirst then
    let (y, r1) ← parseY cs
    let r2 ← expectChar sep r1
    let (m, r3) ← parseM r2
    let r4 ← expectChar sep r3
    let (d, r5) ← parseD r4
    if r5 = [] then mkValidDate y m d else none
  else
    let (d, r1) ← parseD cs
    let r2 ← expectChar sep r1
    let (m, r3) ← parseM r2
    let r4 ← expectChar sep r3
    let (y, r5) ← parseY r4
    if r5 = [] then mkValidDate y m d else none

/-- The fixed pattern list of `_format_date`
(`%Y-%m-%d`, `%d-%m-%Y`, `%Y/%m/%d`, `%d.%m.%Y`), in source order. -/
def datePatterns : List (List Char → Option PDate) :=
  [strptime3 true '-', strptime3 false '-', strptime3 true '/',
   strptime3 false '.']

/-- The `for fmt in (...): try ... break except ... continue` loop of
`_format_date`: first successful pattern wins. -/
def firstParse (fs : List (List Char → Option PDate)) (cs : List Char) :
    Option PDate :=
  match fs with
  | [] => none
  | f :: rest =>
    match f cs with
    | some d => some d
    | none => firstParse rest cs

/-- Model of `datetime.fromisoformat` on a date-only string: the strict
`YYYY-MM-DD` form with two-digit month and day (CPython's documented
format for date strings, before the 3.11 extensions). -/
def fromisoformatDate (cs : List Char) : Option PDate :=
  match cs with
  | [a, b, c, d, s1, e, f, s2, g, h] =>
    if a.isDigit ∧ b.isDigit ∧ c.isDigit ∧ d.isDigit ∧ s1 = '-' ∧
        e.isDigit ∧ f.isDigit ∧ s2 = '-' ∧ g.isDigit ∧ h.isDigit then
      mkValidDate (digitsToNat [a, b, c, d]) (digitsToNat [e, f])
        (digitsToNat [g, h])
    else none
  | _ => none

/-- Two-digit zero padding of `strftime`. -/
def pad2 (n : Nat) : String :=
  if n < 10 then "0" ++ toString n else toString n

/-- `parsed.strftime("%d.%m.%Y")`. -/
def formatDMY (d : PDate) : String :=
  pad2 d.day ++ "." ++ pad2 d.month ++ "." ++ toString d.year

/-- The prefix of the stripped text before the first `T`
(`text.split("T", 1)[0]`), taken only when a `T` occurs. -/
def dropTimeOfDay (cs : List Char) : List Char :=
  if cs.contains 'T' then cs.takeWhile (fun c => c ≠ 'T') else cs

/-- `_format_date` (download_nigeria_settlements.py, lines 136-160).
`none` models the Python argument `None`; the year is `none` for the
`"no value"` outcome. -/
def format_date : Option String → String × Option Nat
  | none => ("Unknown", none)
  | some raw =>
    if raw = "" then ("Unknown", none)
    else
      let text := pyStrip raw
      if text = "" then ("Unknown", none)
      else
        let text := (dropTimeOfDay text.toList).asString
        match firstParse datePatterns text.toList with
        | some d => (formatDMY d, some d.year)
        | none =>
          match fromisoformatDate text.toList with
          | some d => (formatDMY d, some d.year)
          | none => (raw, none)

/-- `SettlementRecord` (download_nigeria_settlements.py, lines 29-37). -/
structure SettlementRecord where
  settlement_id : String
  city : String
  name : String
  country : String
  url : String

/-- `ParsedSettlement` (download_nigeria_settlements.py, lines 40-53). -/
structure ParsedSettlement where
  rec_id : Nat
  city : String
  name : String
  last_updated : String
  year : Option Nat
  population : Option Int
  area_acres : Option ℚ
  structures : Option Int
  geometry : List (ℚ × ℚ)

/-- A decoded settlement JSON payload: an association list of
field path to value, looked up like a Python dict. -/
abbrev Payload := List (String × PyVal)

/-- `payload.get(key)`. -/
def pget (p : Payload) (k : String) : Option PyVal :=
  match p with
  | [] => none
  | (k', v) :: rest => if k' = k then some v else pget rest k

/-- Lines 173-177 of `parse_settlement_page`: each `[lat, lon]` string pair
is parsed with `float` and appended as `(lon, lat)`; a parse failure is a
`ValueError` that propagates out of the page parser (modelled as `none`). -/
def shape_to_geometry : List (String × String) → Option (List (ℚ × ℚ))
  | [] => some []
  | (latS, lonS) :: rest => do
    let lat ← parseFloat latS
    let lon ← parseFloat lonS
    let tail ← shape_to_geometry rest
    pure ((lon, lat) :: tail)

/-- Lines 179-180 of `parse_settlement_page`: append the starting point
when the parsed shape is non-empty and not already closed. -/
def closeRing (g : List (ℚ × ℚ)) : List (ℚ × ℚ) :=
  match g.head?, g.getLast? with
  | some a, some b => if a = b then g else g ++ [a]
  | _, _ => g

/-- The geometry phase of `parse_settlement_page`
(lines 173-181): parse, reorder, then close the ring. -/
def settlement_geometry (shape_raw : List (String × String)) :
    Option (List (ℚ × ℚ)) :=
  (shape_to_geometry shape_raw).map closeRing

/-- Python `value or 0` on an optional float
(lines 219-220: `_safe_float(...) or 0`). -/
def pyOrZero (v : Option ℚ) : ℚ :=
  match v with
  | some q => if q ≠ 0 then q else 0
  | none => 0

/-- The population derivation of `build_parsed_records`
(lines 217-222): keep the coerced explicit estimate when truthy and
positive, otherwise fall back to `round(households * household_size)`,
which stands only when strictly positive. -/
def derive_population (pop hh hhSize : Option PyVal) : Option Int :=
  let population := safe_int pop
  let bad : Bool :=
    match population with
    | none => true
    | some p => decide (p ≤ 0)
  if bad then
    let households := pyOrZero (safe_float hh)
    let household_size := pyOrZero (safe_float hhSize)
    let computed := pyRound (households * household_size)
    if 0 < computed then some computed else none
  else population

/-- The value fed to `_format_date`: the date fields of Input B are
strings, so only a string payload value is forwarded. -/
def pvToStr : Option PyVal → Option String
  | some (.vstr s) => some s
  | _ => none

/-- The per-item outcome of the try-block of `build_parsed_records`
(lines 194-210): the HTTP fetch plus `parse_settlement_page`, either the
decoded `(payload, geometry)` pair or the message of the caught
`RequestException` / `ValueError`. -/
abbrev FetchOutcome := Except String (Payload × List (ℚ × ℚ))

/-- The success branch of the loop body of `build_parsed_records`
(lines 212-239): build one `ParsedSettlement` from the decoded payload. -/
def buildRecord (idx : Nat) (st : SettlementRecord) (payload : Payload)
    (geometry : List (ℚ × ℚ)) : ParsedSettlement :=
  let last_updated := pyOr (pget payload "section_A/A1a_Last_Updated")
    (pget payload "section_A/A1_Profile_Date")
  let fd := format_date (pvToStr last_updated)
  { rec_id := idx
    city := st.city
    name := st.name
    last_updated := fd.1
    year := fd.2
    population := derive_population
      (pget payload "section_C/C11_Population_Estimate")
      (pget payload "section_C/C9_Households")
      (pget payload "section_C/C10_Household_Size")
    area_acres := safe_float (pget payload "section_B/B2b_Area_acres")
    structures := safe_int (pget payload "section_C/C5_Structures_Total")
    geometry := geometry }

/-- The loop of `build_parsed_records` (lines 191-243), with the running
1-based `enumerate` index made explicit. -/
def buildLoop (idx : Nat) :
    List (SettlementRecord × FetchOutcome) →
    List ParsedSettlement × List (SettlementRecord × String)
  | [] => ([], [])
  | (st, out) :: rest =>
    match out with
    | .error e =>
      let acc := buildLoop (idx + 1) rest
      (acc.1, (st, e) :: acc.2)
    | .ok (payload, geometry) =>
      let acc := buildLoop (idx + 1) rest
      (buildRecord idx st payload geometry :: acc.1, acc.2)

/-- `build_parsed_records` (download_nigeria_settlements.py,
lines 185-243): iterate the settlements with `enumerate(..., start=1)`,
recording each per-item failure and continuing. -/
def build_parsed_records (items : List (SettlementRecord × FetchOutcome)) :
    List ParsedSettlement × List (SettlementRecord × String) :=
  buildLoop 1 items

/-- `ORIGIN_SHIFT` (extract_atlas_of_informality.py, line 20):
`2 * math.pi * 6378137 / 2.0`. -/
noncomputable def ORIGIN_SHIFT : ℝ := 2 * Real.pi * 6378137 / 2

/-- `mercator_to_lonlat` (extract_atlas_of_informality.py, lines 23-28). -/
noncomputable def mercator_to_lonlat (x y : ℝ) : ℝ × ℝ :=
  let lon := (x / ORIGIN_SHIFT) * 180
  let lat0 := (y / ORIGIN_SHIFT) * 180
  let lat := 180 / Real.pi *
    (2 * Real.arctan (Real.exp (lat0 * Real.pi / 180)) - Real.pi / 2)
  (lon, lat)

/-- The Mercator inverse written exactly as §4.2 of the spec states the
formula, with `R = π·6378137`; compared against the source embedding. -/
noncomputable def spec_lonlat (x y : ℝ) : ℝ × ℝ :=
  ((x / (Real.pi * 6378137)) * 180,
   180 / Real.pi *
     (2 * Real.arctan (Real.exp (((y / (Real.pi * 6378137)) * 180) *
       Real.pi / 180)) - Real.pi / 2))

/-- `mercator_to_lonlat` applied to a coordinate pair, as used by the
geometry loops (`for x, y in ...`). -/
noncomputable def mercP (p : ℝ × ℝ) : ℝ × ℝ :=
  mercator_to_lonlat p.1 p.2

/-- One maximal run of characters collapsed: the state records whether
the previous output character was an underscore. -/
def collapseAux : Bool → List Char → List Char
  | _, [] => []
  | prevU, c :: rest =>
    if c = '_' then
      if prevU then collapseAux true rest
      else '_' :: collapseAux true rest
    else c :: collapseAux false rest

/-- Replacement of every maximal run of characters outside `[a-z0-9]`
with a single underscore (the regex substitution of `sanitize_name`). -/
def slugify (cs : List Char) : List Char :=
  collapseAux false
    (cs.map (fun c =>
      if ('a' ≤ c ∧ c ≤ 'z') ∨ ('0' ≤ c ∧ c ≤ '9') then c else '_'))

/-- `sanitize_name` (extract_atlas_of_informality.py, lines 31-34). -/
def sanitize_name (name : String) : String :=
  let slug := slugify (pyLower name).toList
  let slug := (slug.dropWhile (fun c => c = '_')).reverse
  let slug := (slug.dropWhile (fun c => c = '_')).reverse
  if slug = [] then "layer" else slug.asString

/-- An ESRI geometry dict as accessed by `convert_geometry`: the four
keys the source reads, each possibly absent. -/
structure EsriGeometry where
  x : Option ℝ
  y : Option ℝ
  paths : Option (List (List (ℝ × ℝ)))
  rings : Option (List (List (ℝ × ℝ)))

/-- The empty dict `{}` (the default of `feature.get("geometry", {})`). -/
def emptyGeom : EsriGeometry := ⟨none, none, none, none⟩

/-- Python truthiness of the geometry dict (`if not geometry`):
true when at least one key is present. -/
def EsriGeometry.truthy (g : EsriGeometry) : Bool :=
  g.x.isSome || g.y.isSome || g.paths.isSome || g.rings.isSome

/-- A GeoJSON geometry as assembled by `convert_geometry`. -/
inductive Geo where
  | point : ℝ × ℝ → Geo
  | lineString : List (ℝ × ℝ) → Geo
  | multiLineString : List (List (ℝ × ℝ)) → Geo
  | polygon : List (List (ℝ × ℝ)) → Geo
  | multiPolygon : List (List (List (ℝ × ℝ))) → Geo

/-- The path loop of the `esriGeometryPolyline` branch (lines 48-55):
convert each path pointwise, dropping converted paths that are empty. -/
noncomputable def convert_paths : List (List (ℝ × ℝ)) → List (List (ℝ × ℝ))
  | [] => []
  | path :: rest =>
    let line := path.map mercP
    if line.isEmpty then convert_paths rest
    else line :: convert_paths rest

/-- The ring loop of the `esriGeometryPolygon` branch (lines 63-71):
convert each ring pointwise, dropping converted rings that are empty. -/
noncomputable def convert_rings : List (List (ℝ × ℝ)) → List (List (ℝ × ℝ))
  | [] => []
  | ring :: rest =>
    let converted_ring := ring.map mercP
    if converted_ring.isEmpty then convert_rings rest
    else converted_ring :: convert_rings rest

/-- `convert_geometry` (extract_atlas_of_informality.py, lines 37-79).
`Except.error` models the raised `ValueError`s: the unsupported-type
message of line 79, and a `KeyError` for a point without coordinates. -/
noncomputable def convert_geometry (geometry : EsriGeometry)
    (geometry_type : String) : Except String (Option Geo) :=
  if ¬geometry.truthy then .ok none
  else if geometry_type = "esriGeometryPoint" then
    match geometry.x, geometry.y with
    | some x, some y => .ok (some (.point (mercator_to_lonlat x y)))
    | _, _ => .error "KeyError"
  else if geometry_type = "esriGeometryPolyline" then
    match convert_paths (geometry.paths.getD []) with
    | [] => .ok none
    | [line] => .ok (some (.lineString line))
    | line_strings => .ok (some (.multiLineString line_strings))
  else if geometry_type = "esriGeometryPolygon" then
    match convert_rings (geometry.rings.getD []) with
    | [] => .ok none
    | [ring] => .ok (some (.polygon [ring]))
    | converted => .ok (some (.multiPolygon (converted.map (fun r => [r]))))
  else .error ("Unsupported geometry type: " ++ geometry_type)

/-- A web-map feature (`featureSet.features[i]`): geometry dict (absent
modelled as the `{}` default of line 96) and attribute mapping. -/
structure Feature where
  geometry : Option EsriGeometry
  attributes : List (String × PyVal)

/-- The sub-layer fields read by `export_feature_collection`:
`layerDefinition.geometryType`, `layerDefinition.name`,
`featureSet.features`. -/
structure FCLayer where
  geometryType : String
  name : Option String
  features : List Feature

/-- The operational-layer fields read by `export_feature_collection`:
`title` and `id`. -/
structure OpLayer where
  title : Option String
  id : Option String

/-- Python `a or b` for an optional string against a fallback
(the `or`-chain of line 90; the empty string is falsy). -/
def pyOrS (a : Option String) (b : String) : String :=
  match a with
  | some s => if s ≠ "" then s else b
  | none => b

/-- The GeoJSON payload assembled by `export_feature_collection`
(file name, converted features, and the metadata block). -/
structure ExportResult where
  fileName : String
  features : List (Geo × List (String × PyVal))
  source_app_id : String
  source_layer_id : Option String
  source_layer_title : Option String
  geometry_type : String
  feature_count : Nat

/-- The feature loop of `export_feature_collection` (lines 94-100):
convert each feature, skipping those whose converted geometry is `None`;
an uncaught `ValueError` from `convert_geometry` propagates. -/
noncomputable def exportFeatures (gt : String) :
    List Feature → Except String (List (Geo × List (String × PyVal)))
  | [] => .ok []
  | f :: rest => do
    let g ← convert_geometry (f.geometry.getD emptyGeom) gt
    let tail ← exportFeatures gt rest
    match g with
    | none => pure tail
    | some geo => pure ((geo, f.attributes) :: tail)

/-- `export_feature_collection` (extract_atlas_of_informality.py,
lines 82-118): convert the features, decline to write (`.ok none`) when
none survive, otherwise produce the named GeoJSON payload. -/
noncomputable def export_feature_collection (layer : OpLayer) (fc : FCLayer)
    (source_app_id : String) : Except String (Option ExportResult) := do
  let layer_name := pyOrS fc.name (pyOrS layer.title (pyOrS layer.id "layer"))
  let file_name := "atlas_of_informality_" ++ sanitize_name layer_name ++
    ".geojson"
  let geojson_features ← exportFeatures fc.geometryType fc.features
  if geojson_features.isEmpty then pure none
  else
    pure (some
      { fileName := file_name
        features := geojson_features
        source_app_id := source_app_id
        source_layer_id := layer.id
        source_layer_title := layer.title
        geometry_type := fc.geometryType
        feature_count := geojson_features.length })

/-- Concrete geometry dict used as the C4 witness input: one one-point
path and two one-point rings. -/
noncomputable def sampleMultipart : EsriGeometry :=
  ⟨none, none, some [[((0 : ℝ), (0 : ℝ))]],
   some [[((0 : ℝ), (0 : ℝ))], [((1 : ℝ), (1 : ℝ))]]⟩

/-- Concrete unclosed-ring polygon used for the C2 counterexample. -/
noncomputable def sampleUnclosed : EsriGeometry :=
  ⟨none, none, none,
   some [[((0 : ℝ), (0 : ℝ)), ((1 : ℝ), (1 : ℝ)), ((1 : ℝ), (0 : ℝ))]]⟩

/-- Concrete web-map sub-layer with an unsupported geometry-type
discriminant and two point-dict features, used for C3. -/
noncomputable def sampleMultipointFC : FCLayer :=
  ⟨"esriGeometryMultipoint", some "Sites",
   [⟨some ⟨some (0 : ℝ), some (0 : ℝ), none, none⟩, []⟩,
    ⟨some ⟨some (1 : ℝ), some (1 : ℝ), none, none⟩, []⟩]⟩

/-- Concrete operational layer for C3. -/
def sampleOpLayer : OpLayer := ⟨some "Atlas", some "layer-1"⟩

/-- A minimal settlement record used for the C1 counterexample. -/
def sampleSettlement (n : String) : SettlementRecord :=
  ⟨n, "City", n, "Nigeria", "url"⟩

/-- Three batch items of which exactly the second fails (its page lacks
the geometry marker). -/
def sampleItems : List (SettlementRecord × FetchOutcome) :=
  [(sampleSettlement "A", .ok ([], [])),
   (sampleSettlement "B", .error "Could not locate geometry payload in page"),
   (sampleSettlement "C", .ok ([], []))]

/-- Value of a whole-number literal scan. -/
theorem litVal_int (m : Int) : litVal ⟨m, 0, 0⟩ = (m : ℚ) := by
  norm_num [litVal]

/-- C8: `mercator_to_lonlat` is a pure function of its two arguments (it
is a plain function of `(x, y)` in this embedding, so identical inputs
give identical outputs and there are no side effects or error paths), and
for every input it computes exactly the spec formula
`lon = (x / R) * 180`,
`lat = 180/π * (2·atan(exp(((y / R) * 180)·π/180)) − π/2)` with
`R = π·6378137`: the source's `ORIGIN_SHIFT = 2·π·6378137 / 2` equals `R`. -/
theorem mercator_to_lonlat_spec_formula (x y : ℝ) :
    mercator_to_lonlat x y = spec_lonlat x y := by
  have h : ORIGIN_SHIFT = Real.pi * 6378137 := by
    unfold ORIGIN_SHIFT; ring
  simp only [mercator_to_lonlat, spec_lonlat, h]

/-- C10: `_safe_int` rounds halves to the even neighbour (Python
banker's rounding), not away from zero: `"2.5"` gives `2` and `"3.5"`
gives `4`, and in general a value exactly halfway between two integers
rounds to whichever neighbour is even. -/
theorem safe_int_rounds_half_to_even :
    safe_int (some (.vstr "2.5")) = some 2 ∧
    safe_int (some (.vstr "3.5")) = some 4 ∧
    (∀ n : Int, pyRound ((n : ℚ) + 1 / 2) = if n % 2 = 0 then n else n + 1) := by
  refine ⟨?_, ?_, ?_⟩
  · have h : scanLit "2.5" = some ⟨25, 1, 0⟩ := by decide
    have hs : pyStrip "2.5" = "2.5" := by decide
    simp only [safe_int, safe_float, parseFloat, hs, h]
    rw [if_neg (by decide)]
    have hv : litVal ⟨25, 1, 0⟩ = 5 / 2 := by norm_num [litVal]
    rw [Option.map_map, Option.map_some', Function.comp_apply, hv]
    norm_num [pyRound]
  · have h : scanLit "3.5" = some ⟨35, 1, 0⟩ := by decide
    have hs : pyStrip "3.5" = "3.5" := by decide
    simp only [safe_int, safe_float, parseFloat, hs, h]
    rw [if_neg (by decide)]
    have hv : litVal ⟨35, 1, 0⟩ = 7 / 2 := by norm_num [litVal]
    rw [Option.map_map, Option.map_some', Function.comp_apply, hv]
    norm_num [pyRound]
  · intro n
    have hf : ⌊(n : ℚ) + 1 / 2⌋ = n := by
      rw [add_comm, Int.floor_add_int]
      norm_num
    have hr : ((n : ℚ) + 1 / 2) - (n : ℚ) = 1 / 2 := by ring
    unfold pyRound
    simp only [hf, hr]
    norm_num

/-- C6: `_safe_float` and `_safe_int` are total functions of the payload
value (they are plain functions in this embedding, so no input raises):
numeric values and numeric strings yield the numeric value; a missing
key, a stored null, an empty or whitespace-only string, the
case-insensitive spellings na / n/a / nan, and any non-numeric string
yield no value; `_safe_int` is `_safe_float` followed by rounding with
no value propagating; `"42"` gives `42.0` / `42` and `"3.7"` rounds
to `4`. -/
theorem safe_float_safe_int_total_spec :
    safe_float none = none ∧
    safe_float (some .vnull) = none ∧
    (∀ i : Int, safe_float (some (.vint i)) = some (i : ℚ)) ∧
    (∀ q : ℚ, safe_float (some (.vfloat q)) = some q) ∧
    (∀ s, pyStrip s = "" → safe_float (some (.vstr s)) = none) ∧
    (∀ s, pyLower (pyStrip s) = "na" ∨ pyLower (pyStrip s) = "n/a" ∨
        pyLower (pyStrip s) = "nan" → safe_float (some (.vstr s)) = none) ∧
    (∀ s, scanLit (pyStrip s) = none → safe_float (some (.vstr s)) = none) ∧
    (∀ s, ¬(pyStrip s = "" ∨ pyLower (pyStrip s) = "na" ∨
        pyLower (pyStrip s) = "n/a" ∨ pyLower (pyStrip s) = "nan") →
      safe_float (some (.vstr s)) = parseFloat (pyStrip s)) ∧
    (∀ v, safe_int v = (safe_float v).map pyRound) ∧
    safe_float (some (.vstr "42")) = some 42 ∧
    safe_int (some (.vstr "42")) = some 42 ∧
    safe_int (some (.vstr "3.7")) = some 4 ∧
    safe_float (some (.vstr "NA")) = none ∧
    safe_float (some (.vstr "nan")) = none ∧
    safe_float (some (.vstr "")) = none := by
  have h42 : safe_float (some (.vstr "42")) = some 42 := by
    have h : scanLit "42" = some ⟨42, 0, 0⟩ := by decide
    have hs : pyStrip "42" = "42" := by decide
    simp only [safe_float, parseFloat, hs, h]
    rw [if_neg (by decide)]
    norm_num [litVal]
  refine ⟨rfl, rfl, fun i => rfl, fun q => rfl, ?_, ?_, ?_, ?_, fun v => rfl,
    h42, ?_, ?_, by decide, by decide, by decide⟩
  · intro s h
    simp [safe_float, h]
  · intro s h
    rcases h with h | h | h <;> simp [safe_float, h]
  · intro s h
    simp only [safe_float]
    split
    · rfl
    · simp [parseFloat, h]
  · intro s h
    simp only [safe_float]
    rw [if_neg h]
  · rw [show safe_int (some (.vstr "42")) =
      (safe_float (some (.vstr "42"))).map pyRound from rfl, h42]
    have : pyRound 42 = 42 := by norm_num [pyRound]
    simp [this]
  · have h : scanLit "3.7" = some ⟨37, 1, 0⟩ := by decide
    have hs : pyStrip "3.7" = "3.7" := by decide
    simp only [safe_int, safe_float, parseFloat, hs, h]
    rw [if_neg (by decide)]
    have hv : litVal ⟨37, 1, 0⟩ = 37 / 10 := by norm_num [litVal]
    rw [Option.map_map, Option.map_some', Function.comp_apply, hv]
    norm_num [pyRound]

/-- Witness for C6: the coercions evaluated at the concrete inputs
`" "` (whitespace-only), `"N/A"` (case-insensitive filter) and a
non-numeric string. -/
theorem safe_float_safe_int_total_spec_witness :
    safe_float (some (.vstr " ")) = none ∧
    safe_float (some (.vstr "N/A")) = none ∧
    safe_float (some (.vstr "abc")) = none :=
  ⟨safe_float_safe_int_total_spec.2.2.2.2.1 " " (by decide),
   safe_float_safe_int_total_spec.2.2.2.2.2.1 "N/A" (Or.inr (Or.inl (by decide))),
   safe_float_safe_int_total_spec.2.2.2.2.2.2.1 "abc" (by decide)⟩

/-- C5: `_format_date` is a total function of its input string: empty or
whitespace-only input gives `("Unknown", no value)`; a time-of-day
component after `T` is discarded before parsing, so
`"2024-03-05T10:00:00"` gives `("05.03.2024", 2024)`; the four patterns
`%Y-%m-%d`, `%d-%m-%Y`, `%Y/%m/%d`, `%d.%m.%Y` are tried in that fixed
order with the first match winning, then generic ISO-8601 date parsing;
every outcome is `("Unknown", no value)`, a parsed date rendered as
`DD.MM.YYYY` with its year, or the original raw string with no value —
never an exception. -/
theorem format_date_total_spec :
    format_date none = ("Unknown", none) ∧
    (∀ raw, pyStrip raw = "" → format_date (some raw) = ("Unknown", none)) ∧
    format_date (some "2024-03-05T10:00:00") = ("05.03.2024", some 2024) ∧
    format_date (some "") = ("Unknown", none) ∧
    format_date (some "not-a-date") = ("not-a-date", none) ∧
    (∀ cs, firstParse datePatterns cs =
      (strptime3 true '-' cs).orElse fun _ =>
        (strptime3 false '-' cs).orElse fun _ =>
          (strptime3 true '/' cs).orElse fun _ => strptime3 false '.' cs) ∧
    (∀ raw, format_date (some raw) = ("Unknown", none) ∨
      (∃ d : PDate, format_date (some raw) = (formatDMY d, some d.year)) ∨
      format_date (some raw) = (raw, none)) := by
  refine ⟨rfl, ?_, by decide, by decide, by decide, ?_, ?_⟩
  · intro raw h
    by_cases hr : raw = "" <;> simp [format_date, hr, h]
  · intro cs
    cases h1 : strptime3 true '-' cs <;>
      cases h2 : strptime3 false '-' cs <;>
        cases h3 : strptime3 true '/' cs <;>
          cases h4 : strptime3 false '.' cs <;>
            simp [firstParse, datePatterns, h1, h2, h3, h4, Option.orElse]
  · intro raw
    by_cases h1 : raw = ""
    · left
      simp [format_date, h1]
    by_cases h2 : pyStrip raw = ""
    · left
      simp [format_date, h1, h2]
    simp only [format_date]
    rw [if_neg h1, if_neg h2]
    cases h3 : firstParse datePatterns
        ((dropTimeOfDay (pyStrip raw).toList).asString).toList with
    | some d =>
      right; left
      exact ⟨d, rfl⟩
    | none =>
      cases h4 : fromisoformatDate
          ((dropTimeOfDay (pyStrip raw).toList).asString).toList with
      | some d =>
        right; left
        exact ⟨d, rfl⟩
      | none =>
        right; right
        rfl

/-- Witness for C5: a whitespace-only input evaluates to
`("Unknown", no value)` through the theorem's second clause. -/
theorem format_date_total_spec_witness :
    format_date (some " ") = ("Unknown", none) :=
  format_date_total_spec.2.1 " " (by decide)

/-- Rounding an exact integer returns it. -/
theorem pyRound_intCast (n : Int) : pyRound (n : ℚ) = n := by
  unfold pyRound
  simp [Int.floor_intCast]

/-- Coercing a stored Python int yields that int. -/
theorem safe_int_vint (n : Int) : safe_int (some (.vint n)) = some n := by
  simp [safe_int, safe_float, pyRound_intCast]

/-- C7: the record builder's population is the coerced explicit
population-estimate field whenever that coercion yields a strictly
positive value; otherwise it is `round(households * household_size)`
with each factor coerced by `_safe_float` and defaulting to 0, and it is
no value when that product does not round to a strictly positive
number. -/
theorem derive_population_preference (pop hh hhSize : Option PyVal) :
    (∀ p : Int, safe_int pop = some p → 0 < p →
      derive_population pop hh hhSize = some p) ∧
    (safe_int pop = none ∨ (∃ p, safe_int pop = some p ∧ p ≤ 0) →
      derive_population pop hh hhSize =
        (if 0 < pyRound (pyOrZero (safe_float hh) * pyOrZero (safe_float hhSize))
         then some (pyRound (pyOrZero (safe_float hh) * pyOrZero (safe_float hhSize)))
         else none)) := by
  constructor
  · intro p h hpos
    simp only [derive_population, h]
    simp [not_le.mpr hpos]
  · intro h
    rcases h with h | ⟨p, h, hple⟩ <;> simp only [derive_population, h]
    · simp
    · simp [hple]

/-- Witness for C7: a stored explicit estimate of 5 is kept as is. -/
theorem derive_population_preference_witness :
    derive_population (some (.vint 5)) none none = some 5 :=
  (derive_population_preference (some (.vint 5)) none none).1 5
    (safe_int_vint 5) (by decide)

/-- The path loop equals pointwise conversion followed by the removal of
empty converted paths. -/
theorem convert_paths_eq (ps : List (List (ℝ × ℝ))) :
    convert_paths ps = (ps.map (List.map mercP)).filter (fun l => !l.isEmpty) := by
  induction ps with
  | nil => rfl
  | cons p rest ih =>
    simp only [convert_paths, List.map_cons, List.filter_cons]
    by_cases h : (p.map mercP).isEmpty <;> simp [h, ih]

/-- The ring loop equals pointwise conversion followed by the removal of
empty converted rings. -/
theorem convert_rings_eq (rs : List (List (ℝ × ℝ))) :
    convert_rings rs = (rs.map (List.map mercP)).filter (fun r => !r.isEmpty) := by
  induction rs with
  | nil => rfl
  | cons r rest ih =>
    simp only [convert_rings, List.map_cons, List.filter_cons]
    by_cases h : (r.map mercP).isEmpty <;> simp [h, ih]

/-- A geometry with a surviving converted path is a truthy dict. -/
theorem truthy_of_paths_survivor (g : EsriGeometry)
    (h : ((g.paths.getD []).map (List.map mercP)).filter
      (fun l => !l.isEmpty) ≠ []) : g.truthy = true := by
  cases hp : g.paths with
  | none => exact absurd (by rw [hp]; rfl) h
  | some ps => simp [EsriGeometry.truthy, hp]

/-- A geometry with a surviving converted ring is a truthy dict. -/
theorem truthy_of_rings_survivor (g : EsriGeometry)
    (h : ((g.rings.getD []).map (List.map mercP)).filter
      (fun r => !r.isEmpty) ≠ []) : g.truthy = true := by
  cases hp : g.rings with
  | none => exact absurd (by rw [hp]; rfl) h
  | some rs => simp [EsriGeometry.truthy, hp]

/-- Unfolding of the polyline branch for a truthy geometry. -/
theorem convert_geometry_polyline_branch (g : EsriGeometry)
    (ht : g.truthy = true) :
    convert_geometry g "esriGeometryPolyline" =
      (match convert_paths (g.paths.getD []) with
       | [] => .ok none
       | [line] => .ok (some (.lineString line))
       | line_strings => .ok (some (.multiLineString line_strings))) := by
  unfold convert_geometry
  rw [if_neg (by simp [ht]), if_neg (by decide), if_pos rfl]

/-- Unfolding of the polygon branch for a truthy geometry. -/
theorem convert_geometry_polygon_branch (g : EsriGeometry)
    (ht : g.truthy = true) :
    convert_geometry g "esriGeometryPolygon" =
      (match convert_rings (g.rings.getD []) with
       | [] => .ok none
       | [ring] => .ok (some (.polygon [ring]))
       | converted => .ok (some (.multiPolygon (converted.map (fun r => [r]))))) := by
  unfold convert_geometry
  rw [if_neg (by simp [ht]), if_neg (by decide), if_neg (by decide),
    if_pos rfl]

/-- C4: for every ESRI geometry dict, with `L` the converted non-empty
paths and `R` the converted non-empty rings: the polyline result is null
when no line survives, a `LineString` for exactly one, and a
`MultiLineString` keeping all survivors as siblings for two or more; the
polygon result is null when no ring survives, a single-ring `Polygon`
for exactly one, and for two or more a `MultiPolygon` in which each ring
is independently wrapped as its own single-ring polygon, never a hole. -/
theorem convert_geometry_multipart_policy (g : EsriGeometry)
    (L R : List (List (ℝ × ℝ)))
    (hL : L = ((g.paths.getD []).map (List.map mercP)).filter
      (fun l => !l.isEmpty))
    (hR : R = ((g.rings.getD []).map (List.map mercP)).filter
      (fun r => !r.isEmpty)) :
    (L = [] → convert_geometry g "esriGeometryPolyline" = .ok none) ∧
    (∀ l, L = [l] →
      convert_geometry g "esriGeometryPolyline" = .ok (some (.lineString l))) ∧
    (2 ≤ L.length →
      convert_geometry g "esriGeometryPolyline" =
        .ok (some (.multiLineString L))) ∧
    (R = [] → convert_geometry g "esriGeometryPolygon" = .ok none) ∧
    (∀ r, R = [r] →
      convert_geometry g "esriGeometryPolygon" = .ok (some (.polygon [r]))) ∧
    (2 ≤ R.length →
      convert_geometry g "esriGeometryPolygon" =
        .ok (some (.multiPolygon (R.map (fun r => [r]))))) := by
  subst hL hR
  refine ⟨?_, ?_, ?_, ?_, ?_, ?_⟩
  · intro h
    by_cases ht : g.truthy
    · rw [convert_geometry_polyline_branch g ht, convert_paths_eq, h]
    · unfold convert_geometry
      rw [if_pos (by simp [ht])]
  · intro l h
    have ht := truthy_of_paths_survivor g (by rw [h]; exact List.cons_ne_nil l [])
    rw [convert_geometry_polyline_branch g ht, convert_paths_eq, h]
  · intro h
    have hne : ((g.paths.getD []).map (List.map mercP)).filter
        (fun l => !l.isEmpty) ≠ [] := by
      intro hnil
      rw [hnil] at h
      exact absurd h (by decide)
    have ht := truthy_of_paths_survivor g hne
    rw [convert_geometry_polyline_branch g ht, convert_paths_eq]
    rcases hsh : ((g.paths.getD []).map (List.map mercP)).filter
        (fun l => !l.isEmpty) with _ | ⟨a, _ | ⟨b, rest⟩⟩
    · exact absurd hsh hne
    · rw [hsh] at h
      simp at h
    · rw [hsh]
  · intro h
    by_cases ht : g.truthy
    · rw [convert_geometry_polygon_branch g ht, convert_rings_eq, h]
    · unfold convert_geometry
      rw [if_pos (by simp [ht])]
  · intro r h
    have ht := truthy_of_rings_survivor g (by rw [h]; exact List.cons_ne_nil r [])
    rw [convert_geometry_polygon_branch g ht, convert_rings_eq, h]
  · intro h
    have hne : ((g.rings.getD []).map (List.map mercP)).filter
        (fun r => !r.isEmpty) ≠ [] := by
      intro hnil
      rw [hnil] at h
      exact absurd h (by decide)
    have ht := truthy_of_rings_survivor g hne
    rw [convert_geometry_polygon_branch g ht, convert_rings_eq]
    rcases hsh : ((g.rings.getD []).map (List.map mercP)).filter
        (fun r => !r.isEmpty) with _ | ⟨a, _ | ⟨b, rest⟩⟩
    · exact absurd hsh hne
    · rw [hsh] at h
      simp at h
    · rw [hsh]

/-- Witness for C4: the sample geometry has one surviving path and two
surviving rings, so the polyline branch gives a `LineString` and the
polygon branch a two-element `MultiPolygon` of single-ring polygons. -/
theorem convert_geometry_multipart_policy_witness :
    convert_geometry sampleMultipart "esriGeometryPolyline" =
      .ok (some (.lineString (List.map mercP [((0 : ℝ), (0 : ℝ))]))) ∧
    convert_geometry sampleMultipart "esriGeometryPolygon" =
      .ok (some (.multiPolygon
        ((((sampleMultipart.rings.getD []).map (List.map mercP)).filter
          (fun r => !r.isEmpty)).map (fun r => [r])))) :=
  ⟨(convert_geometry_multipart_policy sampleMultipart _ _ rfl rfl).2.1
      (List.map mercP [((0 : ℝ), (0 : ℝ))]) rfl,
   (convert_geometry_multipart_policy sampleMultipart _ _ rfl rfl).2.2.2.2.2
      (by decide)⟩

/-- `closeRing` either returns the ring unchanged or appends exactly the
head point once. -/
theorem closeRing_cases (g : List (ℚ × ℚ)) :
    closeRing g = g ∨ ∃ a, g.head? = some a ∧ closeRing g = g ++ [a] := by
  unfold closeRing
  cases hh : g.head? with
  | none => left; rfl
  | some a =>
    cases hl : g.getLast? with
    | none => left; rfl
    | some b =>
      by_cases heq : a = b
      · left; simp [heq]
      · right; exact ⟨a, rfl, by simp [heq]⟩

/-- Taking the original length from a closed ring recovers the parsed
points: closure only ever appends at the end. -/
theorem closeRing_take (g : List (ℚ × ℚ)) :
    (closeRing g).take g.length = g := by
  rcases closeRing_cases g with h | ⟨a, _, h⟩
  · rw [h, List.take_length]
  · rw [h, List.take_left]

/-- The parsed shape has one point per source pair, each obtained by
`float` on the two strings with no other transformation. -/
theorem shape_to_geometry_pointwise (pairs : List (String × String))
    (qs : List (ℚ × ℚ)) (h : shape_to_geometry pairs = some qs) :
    qs.length = pairs.length ∧
    (∀ (i : Nat) latS lonS, pairs[i]? = some (latS, lonS) →
      ∃ la lo, parseFloat latS = some la ∧ parseFloat lonS = some lo ∧
        qs[i]? = some (lo, la)) := by
  induction pairs generalizing qs with
  | nil =>
    simp only [shape_to_geometry, Option.some_inj] at h
    subst h
    refine ⟨rfl, ?_⟩
    intro i latS lonS hi
    simp at hi
  | cons p rest ih =>
    obtain ⟨latS0, lonS0⟩ := p
    cases hla : parseFloat latS0 with
    | none => simp [shape_to_geometry, hla] at h
    | some la =>
      cases hlo : parseFloat lonS0 with
      | none => simp [shape_to_geometry, hla, hlo] at h
      | some lo =>
        cases htl : shape_to_geometry rest with
        | none => simp [shape_to_geometry, hla, hlo, htl] at h
        | some tail =>
          have hq : qs = (lo, la) :: tail := by
            simp [shape_to_geometry, hla, hlo, htl, pure] at h
            exact h.symm
          subst hq
          obtain ⟨ih1, ih2⟩ := ih tail htl
          refine ⟨by simp [ih1], ?_⟩
          intro i latS lonS hi
          cases i with
          | zero =>
            simp only [List.getElem?_cons_zero, Option.some_inj] at hi
            obtain ⟨h1, h2⟩ := Prod.mk.injEq .. ▸ hi
            refine ⟨la, lo, ?_, ?_, by simp⟩
            · rw [← h1]; exact hla
            · rw [← h2]; exact hlo
          | succ n =>
            simp only [List.getElem?_cons_succ] at hi ⊢
            exact ih2 n latS lonS hi

/-- C9: `parse_settlement_page` applies no Mercator inversion to the
HTML-embedded coordinate array: each `[lat, lon]` string pair is parsed
with `float` and emitted as `(lon, lat)` at the same position, both in
the parsed list and in the final (closed) geometry, whose first
`pairs.length` entries are exactly the parsed points. -/
theorem settlement_geometry_no_mercator (pairs : List (String × String))
    (qs : List (ℚ × ℚ)) (h : shape_to_geometry pairs = some qs) :
    qs.length = pairs.length ∧
    (∀ (i : Nat) latS lonS, pairs[i]? = some (latS, lonS) →
      ∃ la lo, parseFloat latS = some la ∧ parseFloat lonS = some lo ∧
        qs[i]? = some (lo, la)) ∧
    settlement_geometry pairs = some (closeRing qs) ∧
    (closeRing qs).take pairs.length = qs := by
  obtain ⟨h1, h2⟩ := shape_to_geometry_pointwise pairs qs h
  refine ⟨h1, h2, ?_, ?_⟩
  · rw [settlement_geometry, h, Option.map_some']
  · rw [← h1]
    exact closeRing_take qs

/-- Witness for C9: the single pair `["1.5", "2.5"]` parses to the
single point `(2.5, 1.5)`. -/
theorem settlement_geometry_no_mercator_witness :
    shape_to_geometry [("1.5", "2.5")] =
      some [(litVal ⟨25, 1, 0⟩, litVal ⟨15, 1, 0⟩)] ∧
    (∀ (i : Nat) latS lonS, [("1.5", "2.5")][i]? = some (latS, lonS) →
      ∃ la lo, parseFloat latS = some la ∧ parseFloat lonS = some lo ∧
        [(litVal ⟨25, 1, 0⟩, litVal ⟨15, 1, 0⟩)][i]? = some (lo, la)) := by
  have hp : shape_to_geometry [("1.5", "2.5")] =
      some [(litVal ⟨25, 1, 0⟩, litVal ⟨15, 1, 0⟩)] := by
    simp [shape_to_geometry, parseFloat,
      show scanLit "1.5" = some ⟨15, 1, 0⟩ from by decide,
      show scanLit "2.5" = some ⟨25, 1, 0⟩ from by decide, pure]
  exact ⟨hp,
    (settlement_geometry_no_mercator [("1.5", "2.5")]
      [(litVal ⟨25, 1, 0⟩, litVal ⟨15, 1, 0⟩)] hp).2.1⟩

/-- Two Mercator inputs with different x convert to different
longitudes. -/
theorem mercP_zero_ne_one :
    mercP ((0 : ℝ), (0 : ℝ)) ≠ mercP ((1 : ℝ), (0 : ℝ)) := by
  have hOS : (0 : ℝ) < ORIGIN_SHIFT := by
    unfold ORIGIN_SHIFT
    positivity
  intro h
  have h1 := congrArg Prod.fst h
  simp only [mercP, mercator_to_lonlat] at h1
  rw [zero_div, zero_mul] at h1
  have hpos : (0 : ℝ) < 1 / ORIGIN_SHIFT * 180 := by positivity
  linarith [h1, hpos]

/-- C2 counterexample: `convert_geometry` does not close polygon rings.
The unclosed source ring `[(0,0), (1,1), (1,0)]` is emitted as a
`Polygon` whose ring still has differing first and last points, so the
claimed closure guarantee fails on the ESRI-polygon path. -/
theorem convert_geometry_ring_left_open :
    convert_geometry sampleUnclosed "esriGeometryPolygon" =
      .ok (some (.polygon [[mercP ((0 : ℝ), (0 : ℝ)),
        mercP ((1 : ℝ), (1 : ℝ)), mercP ((1 : ℝ), (0 : ℝ))]])) ∧
    [mercP ((0 : ℝ), (0 : ℝ)), mercP ((1 : ℝ), (1 : ℝ)),
        mercP ((1 : ℝ), (0 : ℝ))].head? ≠
      [mercP ((0 : ℝ), (0 : ℝ)), mercP ((1 : ℝ), (1 : ℝ)),
        mercP ((1 : ℝ), (0 : ℝ))].getLast? := by
  constructor
  · rw [convert_geometry_polygon_branch sampleUnclosed (by decide)]
    rfl
  · intro h
    simp only [List.head?_cons, List.getLast?_cons_cons,
      List.getLast?_singleton, Option.some_inj] at h
    exact mercP_zero_ne_one h

/-- C2 amended: the ring-closure guarantee holds on the HTML-embedded
path only: there `closeRing` makes the first point equal the last,
appends the starting point exactly once when the ring is open, and
leaves an already-closed ring unchanged (idempotent closure). The
ESRI-polygon path of `convert_geometry` applies no closure at all: each
output ring is exactly the pointwise Mercator image of its source
ring. -/
theorem ring_closure_amended :
    (∀ g : List (ℚ × ℚ), g ≠ [] →
      (closeRing g).head? = (closeRing g).getLast?) ∧
    (∀ g : List (ℚ × ℚ), g.head? = g.getLast? → closeRing g = g) ∧
    (∀ g : List (ℚ × ℚ), g ≠ [] → g.head? ≠ g.getLast? →
      ∃ a, g.head? = some a ∧ closeRing g = g ++ [a]) ∧
    (∀ rs : List (List (ℝ × ℝ)), convert_rings rs =
      (rs.map (List.map mercP)).filter (fun r => !r.isEmpty)) := by
  have key : ∀ (g : List (ℚ × ℚ)) (a b : ℚ × ℚ), g.head? = some a →
      g.getLast? = some b →
      closeRing g = if a = b then g else g ++ [a] := by
    intro g a b hh hl
    unfold closeRing
    rw [hh, hl]
  refine ⟨?_, ?_, ?_, convert_rings_eq⟩
  · intro g hne
    match g with
    | a :: t =>
      rcases hl : (a :: t).getLast? with _ | b
      · exact absurd hl (by simp)
      rw [key (a :: t) a b List.head?_cons hl]
      by_cases heq : a = b
      · rw [if_pos heq, List.head?_cons, hl, heq]
      · rw [if_neg heq, List.head?_append_of_ne_nil _ (by simp),
          List.getLast?_concat, List.head?_cons]
  · intro g h
    rcases hh : g.head? with _ | a
    · unfold closeRing
      rw [hh]
    rcases hl : g.getLast? with _ | b
    · unfold closeRing
      rw [hh, hl]
    rw [hh, hl] at h
    rw [key g a b hh hl, if_pos (Option.some_inj.mp h)]
  · intro g hne h
    match g with
    | a :: t =>
      rcases hl : (a :: t).getLast? with _ | b
      · exact absurd hl (by simp)
      refine ⟨a, List.head?_cons, ?_⟩
      rw [key (a :: t) a b List.head?_cons hl, if_neg ?_]
      intro heq
      apply h
      rw [List.head?_cons, hl, heq]

/-- Witness for C2: closing the open ring `[(0,0), (1,1)]` yields equal
first and last points, and re-closing the already-closed ring
`[(0,0), (1,1), (0,0)]` leaves it unchanged. -/
theorem ring_closure_amended_witness :
    (closeRing [((0 : ℚ), (0 : ℚ)), (1, 1)]).head? =
      (closeRing [((0 : ℚ), (0 : ℚ)), (1, 1)]).getLast? ∧
    closeRing [((0 : ℚ), (0 : ℚ)), (1, 1), (0, 0)] =
      [(0, 0), (1, 1), (0, 0)] :=
  ⟨ring_closure_amended.1 [((0 : ℚ), (0 : ℚ)), (1, 1)] (by decide),
   ring_closure_amended.2.1 [((0 : ℚ), (0 : ℚ)), (1, 1), (0, 0)] (by decide)⟩

/-- A raised error on the left of a monadic bind short-circuits. -/
theorem except_error_bind {α β : Type} (e : String)
    (k : α → Except String β) : (Except.error e >>= k) = Except.error e :=
  rfl

/-- A truthy geometry with a discriminant outside the known set raises
the unsupported-type `ValueError` naming the discriminant. -/
theorem convert_geometry_unsupported (g : EsriGeometry) (gt : String)
    (ht : g.truthy = true) (h1 : gt ≠ "esriGeometryPoint")
    (h2 : gt ≠ "esriGeometryPolyline") (h3 : gt ≠ "esriGeometryPolygon") :
    convert_geometry g gt = .error ("Unsupported geometry type: " ++ gt) := by
  unfold convert_geometry
  rw [if_neg (by simp [ht]), if_neg h1, if_neg h2, if_neg h3]

/-- C3 counterexample: with the layer discriminant
`esriGeometryMultipoint` and two non-empty features,
`export_feature_collection` does not skip per feature: the raised error
propagates and the layer export aborts with it, so the remaining
feature is never converted or exported. -/
theorem export_feature_collection_unsupported_aborts :
    export_feature_collection sampleOpLayer sampleMultipointFC "app" =
      .error "Unsupported geometry type: esriGeometryMultipoint" := by
  have hc : convert_geometry ⟨some (0 : ℝ), some (0 : ℝ), none, none⟩
      "esriGeometryMultipoint" =
      .error "Unsupported geometry type: esriGeometryMultipoint" :=
    convert_geometry_unsupported _ _ (by decide) (by decide) (by decide)
      (by decide)
  simp [export_feature_collection, exportFeatures, sampleMultipointFC,
    emptyGeom, hc, except_error_bind]

/-- C3 amended: a feature whose geometry-type discriminant is outside
{point, polyline, polygon} and whose geometry dict is non-empty raises
`UnsupportedGeometryError` (never silently coercing the type), and
`export_feature_collection` does not treat it as a per-feature skip:
the error propagates out, aborting the whole layer export. -/
theorem export_unsupported_propagates :
    (∀ (g : EsriGeometry) (gt : String), g.truthy = true →
      gt ≠ "esriGeometryPoint" → gt ≠ "esriGeometryPolyline" →
      gt ≠ "esriGeometryPolygon" →
      convert_geometry g gt = .error ("Unsupported geometry type: " ++ gt)) ∧
    (∀ (layer : OpLayer) (fc : FCLayer) (app : String) (f : Feature)
        (fs : List Feature),
      fc.features = f :: fs → (f.geometry.getD emptyGeom).truthy = true →
      fc.geometryType ≠ "esriGeometryPoint" →
      fc.geometryType ≠ "esriGeometryPolyline" →
      fc.geometryType ≠ "esriGeometryPolygon" →
      export_feature_collection layer fc app =
        .error ("Unsupported geometry type: " ++ fc.geometryType)) := by
  refine ⟨convert_geometry_unsupported, ?_⟩
  intro layer fc app f fs hfeat ht h1 h2 h3
  have hc := convert_geometry_unsupported (f.geometry.getD emptyGeom)
    fc.geometryType ht h1 h2 h3
  simp [export_feature_collection, exportFeatures, hfeat, hc,
    except_error_bind]

/-- Witness for C3: the theorem applied to a concrete truthy point dict
under the `esriGeometryMultipoint` discriminant, and to the concrete
sample layer. -/
theorem export_unsupported_propagates_witness :
    convert_geometry ⟨some (0 : ℝ), some (0 : ℝ), none, none⟩
      "esriGeometryMultipoint" =
      .error ("Unsupported geometry type: " ++ "esriGeometryMultipoint") ∧
    export_feature_collection sampleOpLayer sampleMultipointFC "app" =
      .error ("Unsupported geometry type: " ++ "esriGeometryMultipoint") :=
  ⟨export_unsupported_propagates.1 _ _ (by decide) (by decide) (by decide)
      (by decide),
   export_unsupported_propagates.2 sampleOpLayer sampleMultipointFC "app"
      ⟨some ⟨some (0 : ℝ), some (0 : ℝ), none, none⟩, []⟩
      [⟨some ⟨some (1 : ℝ), some (1 : ℝ), none, none⟩, []⟩]
      rfl (by decide) (by decide) (by decide) (by decide)⟩

/-- C1 counterexample: with 3 items of which only item 2 fails, the
success records carry ids 1 and 3 — the `enumerate(..., start=1)` index
of each item in the input sequence — not the renumbered ids 1 and 2
claimed for the 1-based position among successes. -/
theorem build_parsed_records_ids_not_renumbered :
    ((build_parsed_records sampleItems).1.map (fun r => r.rec_id)) = [1, 3] ∧
    ((build_parsed_records sampleItems).1.map (fun r => r.rec_id)) ≠ [1, 2] ∧
    (build_parsed_records sampleItems).2.length = 1 := by
  refine ⟨by decide, by decide, by decide⟩

/-- The loop invariant of `build_parsed_records`, for any starting
index: successes keep their enumeration index as id, failures keep
their message, and the two output sequences partition the input. -/
theorem buildLoop_spec (idx : Nat)
    (items : List (SettlementRecord × FetchOutcome)) :
    (buildLoop idx items).1.map (fun r => (r.rec_id, r.name)) =
      (List.enumFrom idx items).filterMap (fun x =>
        match x.2.2 with
        | .ok _ => some (x.1, x.2.1.name)
        | .error _ => none) ∧
    (buildLoop idx items).2 = items.filterMap (fun it =>
        match it.2 with
        | .error e => some (it.1, e)
        | .ok _ => none) ∧
    (buildLoop idx items).1.length + (buildLoop idx items).2.length =
      items.length := by
  induction items generalizing idx with
  | nil => exact ⟨rfl, rfl, rfl⟩
  | cons it rest ih =>
    obtain ⟨st, out⟩ := it
    obtain ⟨ih1, ih2, ih3⟩ := ih (idx + 1)
    cases out with
    | error e =>
      refine ⟨?_, ?_, ?_⟩
      · simp only [buildLoop, List.enumFrom_cons, List.filterMap_cons]
        exact ih1
      · simp only [buildLoop, List.filterMap_cons]
        rw [← ih2]
      · simp only [buildLoop, List.length_cons]
        omega
    | ok pg =>
      refine ⟨?_, ?_, ?_⟩
      · simp only [buildLoop, List.enumFrom_cons, List.filterMap_cons,
          List.map_cons]
        rw [ih1]
        rfl
      · simp only [buildLoop, List.filterMap_cons]
        exact ih2
      · simp only [buildLoop, List.length_cons]
        omega

/-- C1 amended: every item lands in exactly one of the two result
sequences, in input order — the failure list is exactly the failing
items with their messages, the success list is exactly the ok items,
and the lengths add up to the input length; a failing item never stops
the loop. The id of each success is its `enumerate(..., start=1)`
position in the *input* sequence (so with 3 items of which only item 2
fails, the successes carry ids 1 and 3), not the renumbered 1-based
position among successes. -/
theorem build_parsed_records_partition
    (items : List (SettlementRecord × FetchOutcome)) :
    (build_parsed_records items).1.map (fun r => (r.rec_id, r.name)) =
      (List.enumFrom 1 items).filterMap (fun x =>
        match x.2.2 with
        | .ok _ => some (x.1, x.2.1.name)
        | .error _ => none) ∧
    (build_parsed_records items).2 = items.filterMap (fun it =>
        match it.2 with
        | .error e => some (it.1, e)
        | .ok _ => none) ∧
    (build_parsed_records items).1.length +
      (build_parsed_records items).2.length = items.length :=
  buildLoop_spec 1 items
